import Mathlib

/-! Haos_sensor_mqtt: provisioning, reconnect and discovery logic of `src/main.cpp`

A shallow embedding of the ESP32 temperature-sensor firmware.  The firmware is
single threaded; its global variables, the flash key-value store and the
observable calls it makes on its collaborators (WiFi, web server, MQTT client,
`delay`, `ESP.restart`) are gathered in one `Device` record that every
function transforms.  Inputs the firmware cannot control (the BOOT pin, the
WiFi link, the broker, the sensor, incoming HTTP requests, the eFuse MAC) are
read from an `Env` record.

Conventions of the embedding:
* `unsigned long` and `uint32_t` are naturals reduced modulo `2^32`;
* the clock `Device.now` advances only inside `delay`; reads of the pin and of
  `millis()` are instantaneous;
* `Serial` output is not modelled;
* a temperature is an integer number of hundredths of a degree, `none` being
  the driver's NaN;
* strings are sequences of characters: the NUL terminator of `c_str()` and
  the capacity of buffers (an NVS value, the ArduinoJson pool, the MQTT packet
  buffer, `tempMsg[10]`) are not modelled;
* a `while` loop whose number of turns depends on the environment takes a
  `fuel` argument; theorems that claim a result state how much fuel suffices.
-/

namespace HaosSensor

/-! ## Machine arithmetic and constants -/

/-- Number of values of a 32-bit unsigned integer. -/
def U32 : Nat := 4294967296

/-- Unsigned 32-bit subtraction, as in `millis() - start`. -/
def subU32 (a b : Nat) : Nat := (a % U32 + U32 - b % U32) % U32

/-- The macro `BOOT_HOLD_MS`. -/
def BOOT_HOLD_MS : Nat := 3000

/-- The constant `TEMPERATURE_INTERVAL` (5 minutes in milliseconds). -/
def TEMPERATURE_INTERVAL : Nat := 5 * 60 * 1000

/-- The constant `AVAILABILITY_INTERVAL`. -/
def AVAILABILITY_INTERVAL : Nat := 300000

/-! ## Arduino `String` helpers -/

/-- Arduino `String::substring(left, right)`: swaps the bounds when reversed,
clamps `right` to the length, and is empty when `left` is past the end. -/
def substring (s : String) (left right : Nat) : String :=
  let l := if left > right then right else left
  let r := if left > right then left else right
  String.mk ((s.data.drop l).take (r - l))

/-- Arduino `String(value, HEX)` for an unsigned value: lowercase hexadecimal
digits, most significant first, no padding (`utoa` with base 16). -/
def hexString (value : Nat) : String :=
  String.mk (Nat.toDigits 16 value)

/-! ## Environment and device state -/

/-- A form submission or page request received by the web server. -/
structure Request where
  isPost : Bool
  path : String
  args : List (String × String)

/-- Inputs of the firmware. Oracles indexed by a time are asked at the value
of the clock; `connectOk k` is the answer of the broker to the `k`-th call of
`mqttClient.connect` (counted from 0). -/
structure Env where
  efuseMac : Nat
  macAddress : String
  pinLow : Nat → Bool
  wifiConnected : Nat → Bool
  brokerLink : Nat → Bool
  connectOk : Nat → Bool
  readTemperature : Nat → Option Int
  httpRequest : Nat → Option Request

/-- Calls made on the collaborators, in the order they are made. -/
inductive Event where
  | wifiMode (ap : Bool)
  | softAP (ssid password : String)
  | wifiBegin (ssid password : String)
  | serverBegin
  | sendHeader (name value : String)
  | send (code : Nat) (contentType body : String)
  | setServer (host : String) (port : Nat)
  | setBufferSize (size : Nat)
  | mqttConnect (clientId willTopic : String) (willQos : Nat) (willRetain : Bool)
      (willMessage : String)
  | mqttPublish (topic payload : String) (retained : Bool)
  | mqttLoop
  | dhtBegin
  | prefsClear (ns : String)
  | delay (ms : Nat)
  | restart
  deriving DecidableEq, Repr

/-- The flash key-value store behind `Preferences`: namespace, key, value. -/
abbrev Store := String → String → Option String

/-- Global variables of the firmware, the flash store, the clock and the log
of calls made on collaborators. -/
structure Device where
  store : Store
  ssidSaved : String
  passSaved : String
  shouldEnterAP : Bool
  deviceName : String
  entityName : String
  deviceLocation : String
  temperature_topic : String
  availability_topic : String
  ha_config_topic : String
  lastTemperature : Int
  lastTemperatureRead : Nat
  lastAvailabilityReport : Nat
  lastSensorTime : Nat
  htmlPage : String
  serverRunning : Bool
  mqttSession : Bool
  mqttAttempts : Nat
  now : Nat
  events : List Event

/-- Outcome of running a piece of the firmware: it returned, it called
`ESP.restart()` (which does not return), or the model ran out of fuel inside
a `while` loop (the state reached so far is kept). -/
inductive Run (α : Type) where
  | done (a : α) (s : Device)
  | restart (s : Device)
  | outOfFuel (s : Device)

/-- The device state carried by an outcome. -/
def Run.state {α : Type} : Run α → Device
  | .done _ s => s
  | .restart s => s
  | .outOfFuel s => s

/-- Sequencing: the continuation runs only when the first part returned. -/
def Run.andThen {α β : Type} (r : Run α) (k : α → Device → Run β) : Run β :=
  match r with
  | .done a s => k a s
  | .restart s => .restart s
  | .outOfFuel s => .outOfFuel s

/-- The function `millis()`. -/
def millis (s : Device) : Nat := s.now % U32

/-- The function `delay(ms)`. -/
def delay (ms : Nat) (s : Device) : Device :=
  { s with now := s.now + ms, events := s.events ++ [Event.delay ms] }

/-- Append one call to the log. -/
def emit (e : Event) (s : Device) : Device :=
  { s with events := s.events ++ [e] }

/-- The call `ESP.restart()`. -/
def ESP_restart (s : Device) : Device := emit Event.restart s

/-! ## Identity -/

/-- The expression `String((uint32_t)ESP.getEfuseMac(), HEX)`. -/
def efuseHex (env : Env) : String := hexString (env.efuseMac % U32)

/-- The function `getUniqueID`. -/
def getUniqueID (env : Env) : String := "tempsensor_" ++ efuseHex env

/-- The function `getShortID`. -/
def getShortID (env : Env) : String := substring (efuseHex env) 0 6

/-- The global `mqtt_client_id`. -/
def mqtt_client_id (env : Env) : String := "tempsensor_" ++ efuseHex env

/-- The global `mqtt_server`. -/
def mqtt_server : String := "8.153.160.138"

/-- The global `ap_ssid`. -/
def ap_ssid (env : Env) : String := "ESP32-Temp-" ++ substring (efuseHex env) 0 4

/-- The global `ap_password`. -/
def ap_password : String := "12345678"

/-- The initial value of the global `deviceName`. -/
def defaultDeviceName (env : Env) : String :=
  "TempSensor_" ++ substring (efuseHex env) 0 4

/-- The function `setupTopics`. -/
def setupTopics (env : Env) (s : Device) : Device :=
  let uid := getShortID env
  { s with
    temperature_topic := "homeassistant/sensor/temperature_" ++ uid ++ "/temperature"
    availability_topic := "homeassistant/sensor/temperature_" ++ uid ++ "/availability"
    ha_config_topic := "homeassistant/sensor/temperature_" ++ uid ++ "/config" }

/-! ## Persisted configuration -/

/-- The call `prefs.putString(key, value)` on an open namespace. -/
def putString (ns key value : String) (st : Store) : Store :=
  fun n k => if n = ns ∧ k = key then some value else st n k

/-- The call `prefs.getString(key, defaultValue)` on an open namespace. -/
def getString (ns key defaultValue : String) (st : Store) : String :=
  (st ns key).getD defaultValue

/-- The call `prefs.clear()` on an open namespace. -/
def prefsClear (ns : String) (st : Store) : Store :=
  fun n k => if n = ns then none else st n k

/-- The function `saveWifiConfig`. -/
def saveWifiConfig (ssid pass : String) (s : Device) : Device :=
  { s with store := putString "wifi" "pass" pass (putString "wifi" "ssid" ssid s.store) }

/-- The function `loadWifiConfig`. -/
def loadWifiConfig (s : Device) : Device :=
  { s with
    ssidSaved := getString "wifi" "ssid" "" s.store
    passSaved := getString "wifi" "pass" "" s.store }

/-- The function `clearWifiConfig`. -/
def clearWifiConfig (s : Device) : Device :=
  emit (Event.prefsClear "wifi") { s with store := prefsClear "wifi" s.store }

/-- The function `saveDeviceConfig`. -/
def saveDeviceConfig (name description location : String) (s : Device) : Device :=
  { s with
    store := putString "device" "location" location
      (putString "device" "description" description
        (putString "device" "name" name s.store)) }

/-- The function `loadDeviceConfig`. -/
def loadDeviceConfig (env : Env) (s : Device) : Device :=
  { s with
    deviceName := getString "device" "name" (defaultDeviceName env) s.store
    entityName := getString "device" "description" "Temperature Sensor" s.store
    deviceLocation := getString "device" "location" "Unknown Location" s.store }

/-! ## BOOT long press -/

/-- The `while` loop of `checkBootLongPress`, entered with `start` already
taken. Each turn samples the pin, compares the elapsed time with
`BOOT_HOLD_MS` and waits 20 ms. -/
def checkBootLoop (env : Env) (start : Nat) (s : Device) : Bool × Device :=
  if env.pinLow s.now then
    if BOOT_HOLD_MS ≤ subU32 (millis s) start then (true, s)
    else checkBootLoop env start (delay 20 s)
  else (false, s)
termination_by BOOT_HOLD_MS - subU32 (millis s) start
decreasing_by
  simp only [subU32, millis, delay, U32, BOOT_HOLD_MS] at *
  omega

/-- The function `checkBootLongPress`. -/
def checkBootLongPress (env : Env) (s : Device) : Bool × Device :=
  if env.pinLow s.now then checkBootLoop env (millis s) s
  else (false, s)

/-! ## Discovery document -/

/-- A JSON document as built with ArduinoJson. -/
inductive Json where
  | str (s : String)
  | bool (b : Bool)
  | arr (items : List Json)
  | obj (members : List (String × Json))

/-- The assignment `object[key] = value`: replaces the member when the key is
present, appends it otherwise. -/
def setMember (key : String) (value : Json) : List (String × Json) → List (String × Json)
  | [] => [(key, value)]
  | (k, v) :: rest =>
    if k = key then (k, value) :: rest else (k, v) :: setMember key value rest

/-- Member access: the value stored under `key`, if any. -/
def getMember (key : String) : List (String × Json) → Option Json
  | [] => none
  | (k, v) :: rest => if k = key then some v else getMember key rest

/-- Escape sequence of one character inside a JSON string. -/
def escapeChar (c : Char) : List Char :=
  if c = '"' then ['\\', '"']
  else if c = '\\' then ['\\', '\\']
  else if c = '\x08' then ['\\', 'b']
  else if c = '\x0c' then ['\\', 'f']
  else if c = '\n' then ['\\', 'n']
  else if c = '\r' then ['\\', 'r']
  else if c = '\t' then ['\\', 't']
  else [c]

/-- A quoted JSON string. -/
def quoteJson (s : String) : String :=
  "\"" ++ String.mk (s.data.flatMap escapeChar) ++ "\""

mutual
/-- The function `serializeJson` of ArduinoJson (compact form). -/
def serializeJson : Json → String
  | .str s => quoteJson s
  | .bool b => if b then "true" else "false"
  | .arr items => "[" ++ serializeItems items ++ "]"
  | .obj members => "\x7b" ++ serializeMembers members ++ "\x7d"
/-- Elements of an array, comma separated. -/
def serializeItems : List Json → String
  | [] => ""
  | [x] => serializeJson x
  | x :: y :: rest => serializeJson x ++ "," ++ serializeItems (y :: rest)
/-- Members of an object, comma separated. -/
def serializeMembers : List (String × Json) → String
  | [] => ""
  | [(k, v)] => quoteJson k ++ ":" ++ serializeJson v
  | (k, v) :: m :: rest =>
    quoteJson k ++ ":" ++ serializeJson v ++ "," ++ serializeMembers (m :: rest)
end

/-- The macro test `DHTTYPE == DHT11` (the source defines `DHTTYPE DHT11`). -/
def DHTTYPE_is_DHT11 : Bool := true

/-- The nested `device` object of `generateHADiscoveryConfig`. -/
def discoveryDevice (env : Env) (s : Device) : List (String × Json) :=
  let uid := getShortID env
  let device : List (String × Json) := []
  let device := setMember "identifiers" (.arr [.str ("temperature_" ++ uid)]) device
  let device := setMember "name" (.str s.deviceName) device
  let device := setMember "manufacturer" (.str "selfmade sensor") device
  let device := setMember "model" (.str ("DHT" ++ (if DHTTYPE_is_DHT11 then "11" else "22"))) device
  let device := setMember "sw_version" (.str "1.0") device
  if s.deviceLocation ≠ "Unknown Location" then
    setMember "suggested_area" (.str s.deviceLocation) device
  else device

/-- The document `doc` of `generateHADiscoveryConfig` before serialisation. -/
def discoveryDoc (env : Env) (s : Device) : List (String × Json) :=
  let uid := getShortID env
  let doc : List (String × Json) := []
  let doc := setMember "name" (.str s.entityName) doc
  let doc := setMember "unique_id" (.str ("temperature_" ++ uid)) doc
  let doc := setMember "state_topic" (.str s.temperature_topic) doc
  let doc := setMember "availability_topic" (.str s.availability_topic) doc
  let doc := setMember "payload_available" (.str "online") doc
  let doc := setMember "payload_not_available" (.str "offline") doc
  let doc := setMember "device_class" (.str "temperature") doc
  let doc := setMember "unit_of_measurement" (.str "°C") doc
  let doc := setMember "value_template" (.str "\x7b\x7b value_json.temperature \x7d\x7d") doc
  let doc := setMember "retain" (.bool true) doc
  let doc := setMember "friendly_name" (.str "温湿度传感器的 friend 名字") doc
  setMember "device" (.obj (discoveryDevice env s)) doc

/-- The function `generateHADiscoveryConfig`. -/
def generateHADiscoveryConfig (env : Env) (s : Device) : String :=
  serializeJson (.obj (discoveryDoc env s))

/-! ## MQTT session -/

/-- The call `mqttClient.connected()`: true when the session is established
and the link to the broker is up; a lost link ends the session. -/
def mqttConnected (env : Env) (s : Device) : Bool × Device :=
  if env.brokerLink s.now then (s.mqttSession, s)
  else (false, { s with mqttSession := false })

/-- The call `mqttClient.connect(id, willTopic, willQos, willRetain, willMessage)`. -/
def mqttConnect (env : Env) (clientId willTopic : String) (willQos : Nat)
    (willRetain : Bool) (willMessage : String) (s : Device) : Bool × Device :=
  let ok := env.connectOk s.mqttAttempts
  (ok, emit (Event.mqttConnect clientId willTopic willQos willRetain willMessage)
    { s with mqttSession := ok, mqttAttempts := s.mqttAttempts + 1 })

/-- The call `mqttClient.publish(topic, payload, retained)`; its result only
selects a log line and is dropped. -/
def mqttPublish (topic payload : String) (retained : Bool) (s : Device) : Device :=
  emit (Event.mqttPublish topic payload retained) s

/-- The function `reconnectMQTT`; `fuel` bounds the turns of its `while`. -/
def reconnectMQTT (env : Env) : Nat → Device → Run Unit
  | 0, s => .outOfFuel s
  | fuel + 1, s =>
    let c := mqttConnected env s
    if c.1 then .done () c.2
    else
      let r := mqttConnect env (mqtt_client_id env) c.2.availability_topic 0 true "offline" c.2
      if r.1 then
        let s1 := mqttPublish r.2.availability_topic "online" true r.2
        let configPayload := generateHADiscoveryConfig env s1
        let s2 := mqttPublish s1.ha_config_topic configPayload true s1
        reconnectMQTT env fuel s2
      else
        reconnectMQTT env fuel (delay 5000 r.2)

/-! ## WiFi join -/

/-- The `while` loop of `connectWiFi`; `fuel` bounds its turns. -/
def connectWiFiLoop (env : Env) (startTime : Nat) : Nat → Device → Run Unit
  | 0, s => .outOfFuel s
  | fuel + 1, s =>
    if env.wifiConnected s.now then .done () s
    else if subU32 (millis s) startTime > 30000 then
      .restart (ESP_restart (clearWifiConfig s))
    else
      let b := checkBootLongPress env s
      if b.1 then .restart (ESP_restart (clearWifiConfig b.2))
      else connectWiFiLoop env startTime fuel (delay 1000 b.2)

/-- The function `connectWiFi`. -/
def connectWiFi (env : Env) (fuel : Nat) (s : Device) : Run Unit :=
  let s1 := emit (Event.wifiBegin s.ssidSaved s.passSaved) (emit (Event.wifiMode false) s)
  connectWiFiLoop env (millis s1) fuel s1

/-! ## Sensor -/

/-- The call `dtostrf(value, 4, 2, buf)` on a value in hundredths. -/
def dtostrf (value : Int) : String :=
  let a := value.natAbs
  let frac := a % 100
  (if value < 0 then "-" else "") ++ toString (a / 100) ++ "." ++
    (if frac < 10 then "0" else "") ++ toString frac

/-- The function `readAndPublishTemperature`. -/
def readAndPublishTemperature (env : Env) (s : Device) : Device :=
  match env.readTemperature s.now with
  | none => s
  | some temperature =>
    let s1 := { s with lastTemperature := temperature, lastTemperatureRead := millis s }
    mqttPublish s1.temperature_topic (dtostrf temperature) true s1


/-! ## Configuration mode -/

/-- The page `htmlPage` built by `startAPMode`. -/
def buildHtmlPage (env : Env) (s : Device) : String :=
    "<!DOCTYPE html><html><head>" ++
    "<meta charset=\x27UTF-8\x27>" ++
    "<meta name=\x27viewport\x27 content=\x27width=device-width, initial-scale=1\x27>" ++
    "<title>ESP32 温度传感器配置 - " ++ getShortID env ++ "</title>" ++
    "<style>" ++
    "body\x7bfont-family:\x27Microsoft YaHei\x27,Arial,sans-serif;background:#f2f2f2;text-align:center;padding-top:60px;\x7d" ++
    ".card\x7bbackground:white;margin:0 auto;padding:25px;border-radius:10px;max-width:350px;" ++
    "box-shadow:0 0 10px rgba(0,0,0,0.15);\x7d" ++
    "h2\x7bcolor:#333;margin-bottom:20px;\x7d" ++
    "input\x7bwidth:100%;padding:12px;margin-top:15px;border-radius:5px;border:1px solid #ccc;" ++
    "box-sizing:border-box;font-size:14px;\x7d" ++
    "button\x7bmargin-top:20px;padding:12px;width:100%;background:#007BFF;color:white;" ++
    "border:none;border-radius:5px;font-size:16px;cursor:pointer;\x7d" ++
    "button:hover\x7bbackground:#0056b3;\x7d" ++
    ".info\x7bcolor:#666;font-size:12px;margin-top:10px;\x7d" ++
    "</style></head><body>" ++
    "<div class=\x27card\x27>" ++
    "<h2>ESP32 温度传感器配置</h2>" ++
    "<p style=\x27color:#666;font-size:14px;\x27>设备ID: " ++ getShortID env ++ "</p>" ++
    "<form method=\x27POST\x27 action=\x27/save\x27>" ++
    "<input name=\x27ssid\x27 placeholder=\x27WiFi 名称 (SSID)\x27 required>" ++
    "<input name=\x27pass\x27 placeholder=\x27WiFi 密码\x27 required>" ++
    "<input name=\x27name\x27 placeholder=\x27设备名称\x27 value=\x27" ++ s.deviceName ++ "\x27>" ++
    "<input name=\x27location\x27 placeholder=\x27设备位置\x27 value=\x27" ++ s.deviceLocation ++ "\x27>" ++
    "<input name=\x27description\x27 placeholder=\x27实体名称\x27 value=\x27" ++ s.entityName ++ "\x27>" ++
    "<button type=\x27submit\x27>保存并重启</button>" ++
    "<p class=\x27info\x27>设备MAC地址: " ++ env.macAddress ++ "</p>" ++
    "<p class=\x27info\x27>设备唯一ID: " ++ getUniqueID env ++ "</p>" ++
    "</form></div></body></html>"

/-- The page `successPage` of the `/save` handler. -/
def successPage (ssid name description location : String) : String :=
    "<!DOCTYPE html><html><head><meta charset=\x27UTF-8\x27>" ++
    "<title>配置成功</title><style>" ++
    "body\x7bfont-family:\x27Microsoft YaHei\x27,Arial,sans-serif;text-align:center;padding-top:100px;\x7d" ++
    "</style></head><body>" ++
    "<h2>✅ 配置保存成功!</h2>" ++
    "<p>设备即将重启并连接WiFi...</p>" ++
    "<p>SSID: " ++ ssid ++ "</p>" ++
    "<p>设备名: " ++ name ++ "</p>" ++
    "<p>描述: " ++ description ++ "</p>" ++
    "<p>位置: " ++ location ++ "</p>" ++
    "</body></html>"

/-- The page `errorPage` of the `/save` handler. -/
def errorPage : String :=
    "<!DOCTYPE html><html><head><meta charset=\x27UTF-8\x27>" ++
    "<title>错误</title><style>" ++
    "body\x7bfont-family:\x27Microsoft YaHei\x27,Arial,sans-serif;text-align:center;padding-top:100px;\x7d" ++
    "</style></head><body>" ++
    "<h2>❌ 错误!</h2>" ++
    "<p>WiFi名称和密码不能为空</p>" ++
    "<p><a href=\x27/\x27>返回重新配置</a></p>" ++
    "</body></html>"

/-- The call `server.arg(name)`: the value of the argument, empty when the
request has no such argument. -/
def serverArg (req : Request) (name : String) : String :=
  ((req.args.find? (fun kv => kv.1 = name)).map (fun kv => kv.2)).getD ""

/-- The handler registered for `POST /save`. -/
def handleSave (req : Request) (s : Device) : Run Unit :=
  let s := emit (Event.sendHeader "Content-Type" "text/html; charset=UTF-8") s
  let ssid := serverArg req "ssid"
  let pass := serverArg req "pass"
  let name := serverArg req "name"
  let description := serverArg req "description"
  let location := serverArg req "location"
  if ssid.length > 0 ∧ pass.length > 0 then
    let s := saveWifiConfig ssid pass s
    let s := saveDeviceConfig name description location s
    let s := emit (Event.send 200 "text/html; charset=UTF-8"
      (successPage ssid name description location)) s
    let s := delay 3000 s
    .restart (ESP_restart s)
  else
    .done () (emit (Event.send 400 "text/html; charset=UTF-8" errorPage) s)

/-- The function `startAPMode`: brings the access point up, captures the form
page and starts the web server with its two routes. -/
def startAPMode (env : Env) (s : Device) : Device :=
  let s := emit (Event.wifiMode true) s
  let s := emit (Event.softAP (ap_ssid env) ap_password) s
  let s := { s with htmlPage := buildHtmlPage env s }
  emit Event.serverBegin { s with serverRunning := true }

/-- The call `server.handleClient()`: serves the request pending at the
current time, if any, through the routes registered by `startAPMode`. -/
def handleClient (env : Env) (s : Device) : Run Unit :=
  if s.serverRunning then
    match env.httpRequest s.now with
    | none => .done () s
    | some req =>
      if req.isPost = false ∧ req.path = "/" then
        .done () (emit (Event.send 200 "text/html; charset=UTF-8" s.htmlPage) s)
      else if req.isPost = true ∧ req.path = "/save" then handleSave req s
      else .done () (emit (Event.send 404 "text/plain" ("Not found: " ++ req.path)) s)
  else .done () s

/-! ## Boot and main loop -/

/-- The state of the firmware when `setup` starts: every global holds its
initialiser, the clock is at 0 and only the flash store is inherited. -/
def boot (env : Env) (store : Store) : Device :=
  { store := store
    ssidSaved := ""
    passSaved := ""
    shouldEnterAP := false
    deviceName := defaultDeviceName env
    entityName := "Temperature Sensor"
    deviceLocation := "Living Room"
    temperature_topic := ""
    availability_topic := ""
    ha_config_topic := ""
    lastTemperature := 0
    lastTemperatureRead := 0
    lastAvailabilityReport := 0
    lastSensorTime := subU32 (subU32 0 TEMPERATURE_INTERVAL) 10
    htmlPage := ""
    serverRunning := false
    mqttSession := false
    mqttAttempts := 0
    now := 0
    events := [] }

/-- The function `setup`; `fuel` bounds the `while` loops it reaches. -/
def setup (env : Env) (fuel : Nat) (s : Device) : Run Unit :=
  let s := delay 1000 s
  let s := emit Event.dhtBegin s
  let s := loadWifiConfig s
  let s := loadDeviceConfig env s
  let b := checkBootLongPress env s
  if b.1 = true ∨ b.2.ssidSaved = "" ∨ b.2.passSaved = "" then
    .done () (startAPMode env { b.2 with shouldEnterAP := true })
  else
    (connectWiFi env fuel b.2).andThen fun _ s =>
      let s := setupTopics env s
      let s := emit (Event.setServer mqtt_server 1883) s
      let s := emit (Event.setBufferSize 2048) s
      reconnectMQTT env fuel s

/-- The function `loop`; `fuel` bounds the `while` loop of `reconnectMQTT`. -/
def loop (env : Env) (fuel : Nat) (s : Device) : Run Unit :=
  if s.shouldEnterAP then handleClient env s
  else
    let c := mqttConnected env s
    (if c.1 then Run.done () c.2 else reconnectMQTT env fuel c.2).andThen fun _ s =>
      let s := emit Event.mqttLoop s
      let s :=
        if subU32 (millis s) s.lastSensorTime > TEMPERATURE_INTERVAL then
          let s := readAndPublishTemperature env s
          { s with lastSensorTime := millis s }
        else s
      let s :=
        if subU32 (millis s) s.lastAvailabilityReport > AVAILABILITY_INTERVAL then
          let s := mqttPublish s.availability_topic "online" true s
          { s with lastAvailabilityReport := millis s }
        else s
      let b := checkBootLongPress env s
      if b.1 then
        .restart (ESP_restart (delay 1000 (clearWifiConfig b.2)))
      else .done () b.2

/-! ## Vocabulary of the statements -/

/-- The calls one failed connect attempt adds to the log. -/
def failedAttempt (env : Env) (s : Device) : List Event :=
  [Event.mqttConnect (mqtt_client_id env) s.availability_topic 0 true "offline", Event.delay 5000]

/-- The calls the successful connect attempt adds to the log. -/
def successfulAttempt (env : Env) (s : Device) : List Event :=
  [Event.mqttConnect (mqtt_client_id env) s.availability_topic 0 true "offline",
   Event.mqttPublish s.availability_topic "online" true,
   Event.mqttPublish s.ha_config_topic (generateHADiscoveryConfig env s) true]


/-! ## Sample environments and states -/

/-- A quiet environment: button released, WiFi and broker reachable, sensor
answering 23.50 degrees, no HTTP request; eFuse MAC of a board whose MAC
address is 24:6F:28:AA:00:01. -/
def quietEnv : Env :=
  { efuseMac := 0x0100AA286F24
    macAddress := "24:6F:28:AA:00:01"
    pinLow := fun _ => false
    wifiConnected := fun _ => true
    brokerLink := fun _ => true
    connectOk := fun _ => true
    readTemperature := fun _ => some 2350
    httpRequest := fun _ => none }

/-- A second board of the same vendor, MAC address 24:6F:28:AA:00:02. -/
def siblingEnv : Env := { quietEnv with efuseMac := 0x0200AA286F24, macAddress := "24:6F:28:AA:00:02" }

/-- An empty flash store. -/
def emptyStore : Store := fun _ _ => none

/-- A form submission with all five fields filled in. -/
def sampleSubmission : Request :=
  { isPost := true
    path := "/save"
    args := [("ssid", "home"), ("pass", "secret"), ("name", "Probe"),
      ("location", "Kitchen"), ("description", "Kitchen temperature")] }

/-- A form submission whose password is missing. -/
def badSubmission : Request :=
  { isPost := true
    path := "/save"
    args := [("ssid", "home"), ("name", "Probe")] }

/-- Calls that only configuration mode makes: access point and web server. -/
def Event.isAccessPoint : Event → Bool
  | .wifiMode true => true
  | .softAP _ _ => true
  | .serverBegin => true
  | .sendHeader _ _ => true
  | .send _ _ _ => true
  | _ => false

/-- Calls that only operational mode makes: WiFi join and broker traffic. -/
def Event.isStation : Event → Bool
  | .wifiMode false => true
  | .wifiBegin _ _ => true
  | .setServer _ _ => true
  | .setBufferSize _ => true
  | .mqttConnect _ _ _ _ _ => true
  | .mqttPublish _ _ _ => true
  | .mqttLoop => true
  | _ => false

/-- The state `s'` differs from `s` at most by the MQTT session, the clock and
the log, and the calls added to the log are none of configuration mode. -/
def Waits (s s' : Device) : Prop :=
  ∃ session attempts now tail,
    s' = { s with mqttSession := session, mqttAttempts := attempts, now := now,
                  events := s.events ++ tail } ∧
    ∀ e ∈ tail, Event.isAccessPoint e = false

/-- The state `s'` keeps the mode flag of `s` and extends its log by calls
that are none of configuration mode. -/
def StaysOperational (s s' : Device) : Prop :=
  s'.shouldEnterAP = s.shouldEnterAP ∧
  ∃ tail, s'.events = s.events ++ tail ∧ ∀ e ∈ tail, Event.isAccessPoint e = false

/-- The button is pressed at boot and released 3000 ms later. -/
def pressedEnv : Env := { quietEnv with pinLow := fun t => decide (t ≤ 3000) }

/-- A broker that refuses the first two connections. -/
def busyBrokerEnv : Env := { quietEnv with connectOk := fun k => decide (2 ≤ k) }

/-- A WiFi network that is never joined. -/
def offlineEnv : Env := { quietEnv with wifiConnected := fun _ => false }

/-- A sensor that fails at time 1000 and answers at every other time. -/
def flakySensorEnv : Env :=
  { quietEnv with readTemperature := fun t => if t = 1000 then none else some 2350 }

/-- A provisioned device in operational mode, one second after boot, with
the broker session up and no sensor read made yet. -/
def operationalState : Device :=
  { setupTopics quietEnv (boot quietEnv emptyStore) with
    ssidSaved := "home"
    passSaved := "secret"
    mqttSession := true
    now := 1000 }

/-- Value of one lowercase hexadecimal digit. -/
def hexDigitValue (c : Char) : Nat :=
  if c.toNat < 58 then c.toNat - 48 else c.toNat - 87

/-- The number a string of lowercase hexadecimal digits denotes. -/
def hexValue (s : String) : Nat :=
  s.data.foldl (fun acc c => acc * 16 + hexDigitValue c) 0

/-- The first statement of `loop` in operational mode,
`if (!mqttClient.connected()) reconnectMQTT();`. -/
def loopReconnect (env : Env) (fuel : Nat) (s : Device) : Run Unit :=
  if (mqttConnected env s).1 = true then Run.done () (mqttConnected env s).2
  else reconnectMQTT env fuel (mqttConnected env s).2

/-- The calls the heartbeat step of `loop` adds to the log from state `s`. -/
def heartbeatLog (s : Device) : List Event :=
  if subU32 (millis s) s.lastAvailabilityReport > AVAILABILITY_INTERVAL then
    [Event.mqttPublish s.availability_topic "online" true]
  else []

/-- The calls the end of a turn of `loop` adds to the log: `n` waits of the
long-press check, then either nothing or the abort sequence. -/
def turnEndLog (n : Nat) (aborted : Bool) : List Event :=
  List.replicate n (Event.delay 20) ++
    (if aborted then [Event.prefsClear "wifi", Event.delay 1000, Event.restart] else [])

/-! ## Theorems -/

theorem subU32_elapsed (t0 n : Nat) (h : n < U32) :
    subU32 ((t0 + n) % U32) (t0 % U32) = n := by
  unfold subU32 U32 at *
  omega

theorem checkBootLoop_true (env : Env) (t0 : Nat)
    (hlow : ∀ t, t0 ≤ t → t ≤ t0 + 3000 → env.pinLow t = true) :
    ∀ k j (s : Device), j + k = 150 → s.now = t0 + 20 * j →
      (checkBootLoop env (t0 % U32) s).1 = true := by
  intro k
  induction k with
  | zero =>
    intro j s hj hs
    have hp : env.pinLow s.now = true := hlow _ (by omega) (by omega)
    have he : subU32 (millis s) (t0 % U32) = 20 * j := by
      rw [millis, hs]; exact subU32_elapsed _ _ (by unfold U32; omega)
    rw [checkBootLoop]
    simp only [hp, he, BOOT_HOLD_MS, if_true]

    rw [if_pos (by omega)]
  | succ k ih =>
    intro j s hj hs
    have hp : env.pinLow s.now = true := hlow _ (by omega) (by omega)
    have he : subU32 (millis s) (t0 % U32) = 20 * j := by
      rw [millis, hs]; exact subU32_elapsed _ _ (by unfold U32; omega)
    rw [checkBootLoop]
    simp only [hp, he, BOOT_HOLD_MS, if_true]
    rw [if_neg (by omega)]
    exact ih (j + 1) (delay 20 s) (by omega) (by simp [delay, hs]; omega)

theorem checkBootLongPress_released (env : Env) (s : Device) (hp : env.pinLow s.now = false) :
    checkBootLongPress env s = (false, s) := by
  simp [checkBootLongPress, hp]

theorem checkBootLongPress_held (env : Env) (s : Device)
    (hlow : ∀ t, s.now ≤ t → t ≤ s.now + 3000 → env.pinLow t = true) :
    (checkBootLongPress env s).1 = true := by
  have hp : env.pinLow s.now = true := hlow s.now (le_refl _) (by omega)
  simp only [checkBootLongPress, hp, if_true, millis]
  exact checkBootLoop_true env s.now hlow 150 0 s (by omega) (by omega)

theorem checkBootLoop_frame (env : Env) (start : Nat) (s : Device) :
    ∃ n, (checkBootLoop env start s).2 =
      { s with now := s.now + 20 * n, events := s.events ++ List.replicate n (Event.delay 20) } := by
  induction s using checkBootLoop.induct env start with
  | case1 s hp he =>
    refine ⟨0, ?_⟩
    rw [checkBootLoop]
    simp [hp, he]
  | case2 s hp he ih =>
    obtain ⟨n, hn⟩ := ih
    refine ⟨n + 1, ?_⟩
    rw [checkBootLoop]
    simp only [hp, he, if_true, if_false]
    rw [hn]
    simp [delay, List.replicate_succ, Nat.mul_add, Nat.add_assoc, Nat.add_comm]
  | case3 s hp =>
    refine ⟨0, ?_⟩
    rw [checkBootLoop]
    simp [hp]

theorem checkBootLongPress_frame (env : Env) (s : Device) :
    ∃ n, (checkBootLongPress env s).2 =
      { s with now := s.now + 20 * n, events := s.events ++ List.replicate n (Event.delay 20) } := by
  unfold checkBootLongPress
  split
  · exact checkBootLoop_frame env (millis s) s
  · exact ⟨0, by simp⟩

theorem mqttConnected_false (env : Env) (s : Device) (h : (mqttConnected env s).1 = false) :
    (mqttConnected env s).2 = { s with mqttSession := false } := by
  by_cases hl : env.brokerLink s.now = true
  · simp only [mqttConnected, hl, if_true] at h ⊢
    cases s
    simp_all
  · simp [mqttConnected, hl]

/-- C5: starting disconnected, when the first `N` calls of
`mqttClient.connect` fail, call `N + 1` succeeds and the client then reports
connected, `reconnectMQTT` returns (any fuel of at least `N + 2` turns is
enough) and has added to the log exactly: `N` times a connect with the derived
client id and the retained last will "offline" on the availability topic
followed by `delay(5000)`, then one more such connect, one retained "online"
on the availability topic and one retained discovery document on the
discovery topic. -/
theorem reconnectMQTT_protocol (env : Env) (N : Nat) : ∀ (s : Device) (fuel : Nat),
    (mqttConnected env s).1 = false →
    (∀ k, k < N → env.connectOk (s.mqttAttempts + k) = false) →
    env.connectOk (s.mqttAttempts + N) = true →
    env.brokerLink (s.now + 5000 * N) = true →
    N + 2 ≤ fuel →
    reconnectMQTT env fuel s = Run.done ()
      { s with
        mqttSession := true
        mqttAttempts := s.mqttAttempts + N + 1
        now := s.now + 5000 * N
        events := s.events ++ (List.replicate N (failedAttempt env s)).flatten ++
          successfulAttempt env s } := by
  induction N with
  | zero =>
    intro s fuel hdis _ hok hlink hfuel
    obtain ⟨f, rfl⟩ : ∃ f, fuel = f + 2 := ⟨fuel - 2, by omega⟩
    simp only [Nat.mul_zero, Nat.add_zero] at hok hlink
    have hsess := mqttConnected_false env s hdis
    rw [reconnectMQTT]
    simp only [hdis, hsess, mqttConnect, hok]
    rw [reconnectMQTT]
    simp [mqttConnected, mqttPublish, emit, hlink, successfulAttempt, generateHADiscoveryConfig,
      discoveryDoc, discoveryDevice]
  | succ N ih =>
    intro s fuel hdis hfail hok hlink hfuel
    obtain ⟨f, rfl⟩ : ∃ f, fuel = f + 1 := ⟨fuel - 1, by omega⟩
    have hsess := mqttConnected_false env s hdis
    have h0 : env.connectOk s.mqttAttempts = false := by simpa using hfail 0 (by omega)
    rw [reconnectMQTT]
    simp only [hdis, hsess, mqttConnect, h0]
    rw [if_neg (by simp), if_neg (by simp)]
    rw [ih _ f]
    · simp [delay, emit, failedAttempt, successfulAttempt, List.replicate_succ,
        generateHADiscoveryConfig, discoveryDoc, discoveryDevice]
      omega
    · simp [mqttConnected, delay, emit]
    · intro k hk
      have := hfail (k + 1) (by omega)
      have e : s.mqttAttempts + 1 + k = s.mqttAttempts + (k + 1) := by omega
      simpa [delay, emit, e] using this
    · have e : s.mqttAttempts + 1 + N = s.mqttAttempts + (N + 1) := by omega
      simpa [delay, emit, e] using hok
    · have : s.now + 5000 + 5000 * N = s.now + 5000 * (N + 1) := by omega
      simpa [delay, emit, this] using hlink
    · omega


/-! ### Provisioning form -/

theorem length_pos_of_ne_empty (x : String) (h : x ≠ "") : x.length > 0 := by
  obtain ⟨d⟩ := x
  cases d with
  | nil => exact absurd rfl h
  | cons c cs => simp [String.length]

theorem length_zero_of_empty (x : String) (h : x = "") : ¬ x.length > 0 := by
  subst h
  decide

/-- C2: a submission to `POST /save` with non-empty ssid and pass ends in a
restart, and on the next boot `loadWifiConfig` and `loadDeviceConfig` yield
exactly the submitted ssid, pass, name, description and location, whatever
the store held before. -/
theorem save_then_reload (s : Device) (req : Request)
    (hssid : serverArg req "ssid" ≠ "") (hpass : serverArg req "pass" ≠ "") :
    ∃ s', handleSave req s = Run.restart s' ∧
      ∀ env : Env,
        (loadWifiConfig (boot env s'.store)).ssidSaved = serverArg req "ssid" ∧
        (loadWifiConfig (boot env s'.store)).passSaved = serverArg req "pass" ∧
        (loadDeviceConfig env (loadWifiConfig (boot env s'.store))).deviceName =
          serverArg req "name" ∧
        (loadDeviceConfig env (loadWifiConfig (boot env s'.store))).entityName =
          serverArg req "description" ∧
        (loadDeviceConfig env (loadWifiConfig (boot env s'.store))).deviceLocation =
          serverArg req "location" := by
  have h1 := length_pos_of_ne_empty _ hssid
  have h2 := length_pos_of_ne_empty _ hpass
  refine ⟨ESP_restart (delay 3000 (emit (Event.send 200 "text/html; charset=UTF-8"
      (successPage (serverArg req "ssid") (serverArg req "name") (serverArg req "description")
        (serverArg req "location")))
      (saveDeviceConfig (serverArg req "name") (serverArg req "description")
        (serverArg req "location")
        (saveWifiConfig (serverArg req "ssid") (serverArg req "pass")
          (emit (Event.sendHeader "Content-Type" "text/html; charset=UTF-8") s))))), ?_, ?_⟩
  · unfold handleSave
    simp only [h1, h2, and_self, if_true]
  · intro env
    simp [loadWifiConfig, loadDeviceConfig, boot, getString, putString, saveWifiConfig,
      saveDeviceConfig, emit, delay, ESP_restart]

/-- A sample of C2: the filled-in sample form is read back after the restart. -/
theorem save_then_reload_witness :
    ∃ s', handleSave sampleSubmission (boot quietEnv emptyStore) = Run.restart s' ∧
      ∀ env : Env,
        (loadWifiConfig (boot env s'.store)).ssidSaved = "home" ∧
        (loadWifiConfig (boot env s'.store)).passSaved = "secret" ∧
        (loadDeviceConfig env (loadWifiConfig (boot env s'.store))).deviceName = "Probe" ∧
        (loadDeviceConfig env (loadWifiConfig (boot env s'.store))).entityName =
          "Kitchen temperature" ∧
        (loadDeviceConfig env (loadWifiConfig (boot env s'.store))).deviceLocation =
          "Kitchen" :=
  save_then_reload (boot quietEnv emptyStore) sampleSubmission (by decide) (by decide)

/-- C3: a submission to `POST /save` with an empty ssid or an empty pass is
answered with status 400 and the error page, returns without restarting,
leaves the flash store and the mode flag as they were, and the next turn of
`loop` serves the web server again. -/
theorem save_rejected (s : Device) (req : Request)
    (h : serverArg req "ssid" = "" ∨ serverArg req "pass" = "") :
    handleSave req s = Run.done ()
      (emit (Event.send 400 "text/html; charset=UTF-8" errorPage)
        (emit (Event.sendHeader "Content-Type" "text/html; charset=UTF-8") s)) ∧
    (handleSave req s).state.store = s.store ∧
    (handleSave req s).state.events = s.events ++
      [Event.sendHeader "Content-Type" "text/html; charset=UTF-8",
       Event.send 400 "text/html; charset=UTF-8" errorPage] ∧
    (handleSave req s).state.shouldEnterAP = s.shouldEnterAP ∧
    (handleSave req s).state.serverRunning = s.serverRunning ∧
    (∀ (env : Env) (fuel : Nat), s.shouldEnterAP = true →
      loop env fuel (handleSave req s).state = handleClient env (handleSave req s).state) := by
  have hcond : ¬ ((serverArg req "ssid").length > 0 ∧ (serverArg req "pass").length > 0) := by
    rintro ⟨h1, h2⟩
    rcases h with h | h
    · exact length_zero_of_empty _ h h1
    · exact length_zero_of_empty _ h h2
  have hrun : handleSave req s = Run.done ()
      (emit (Event.send 400 "text/html; charset=UTF-8" errorPage)
        (emit (Event.sendHeader "Content-Type" "text/html; charset=UTF-8") s)) := by
    unfold handleSave
    simp only [hcond, if_false]
  refine ⟨hrun, ?_, ?_, ?_, ?_, ?_⟩
  · rw [hrun]; rfl
  · rw [hrun]; simp [Run.state, emit]
  · rw [hrun]; rfl
  · rw [hrun]; rfl
  · intro env fuel hap
    rw [hrun]
    simp [Run.state, emit, loop, hap]

/-- A sample of C3: the form without a password is rejected. -/
theorem save_rejected_witness :
    (handleSave badSubmission (boot quietEnv emptyStore)).state.store = emptyStore :=
  (save_rejected (boot quietEnv emptyStore) badSubmission (Or.inr (by decide))).2.1

/-! ### Discovery document -/

/-- C8: in the discovery document of `generateHADiscoveryConfig` the member
`device` is the nested device object; that object has no `suggested_area`
member when the location is "Unknown Location", and for every other location
(the empty string included) its `suggested_area` member is that string. -/
theorem discovery_suggested_area (env : Env) (s : Device) :
    generateHADiscoveryConfig env s = serializeJson (Json.obj (discoveryDoc env s)) ∧
    getMember "device" (discoveryDoc env s) = some (Json.obj (discoveryDevice env s)) ∧
    (s.deviceLocation = "Unknown Location" →
      getMember "suggested_area" (discoveryDevice env s) = none) ∧
    (s.deviceLocation ≠ "Unknown Location" →
      getMember "suggested_area" (discoveryDevice env s) = some (Json.str s.deviceLocation)) := by
  refine ⟨rfl, ?_, ?_, ?_⟩
  · simp [discoveryDoc, setMember, getMember]
  · intro h
    simp [discoveryDevice, setMember, getMember, h]
  · intro h
    simp [discoveryDevice, setMember, getMember, h]

/-- A sample of C8: an empty location is still written to `suggested_area`. -/
theorem discovery_suggested_area_witness :
    getMember "suggested_area"
      (discoveryDevice quietEnv { boot quietEnv emptyStore with deviceLocation := "" }) =
      some (Json.str "") :=
  (discovery_suggested_area quietEnv
    { boot quietEnv emptyStore with deviceLocation := "" }).2.2.2 (by decide)

/-! ### Identity -/

/-- C9: with `hex` the lowercase hexadecimal rendering of the low 32 bits of
the eFuse MAC, `getShortID` is the first 6 characters of `hex`, the AP name is
"ESP32-Temp-" followed by the first 4 characters, `getUniqueID` and the MQTT
client id are "tempsensor_" followed by `hex`, and `setupTopics` sets the three
topics under "homeassistant/sensor/temperature_<shortId>/"; the topics do not
depend on the state `setupTopics` starts from (persisted configuration
included) nor on how often it is applied, and two environments with the same
eFuse MAC derive the same identifiers. -/
theorem identity_derivation (env : Env) :
    getShortID env = String.mk ((hexString (env.efuseMac % 2 ^ 32)).data.take 6) ∧
    ap_ssid env = "ESP32-Temp-" ++ String.mk ((hexString (env.efuseMac % 2 ^ 32)).data.take 4) ∧
    getUniqueID env = "tempsensor_" ++ hexString (env.efuseMac % 2 ^ 32) ∧
    mqtt_client_id env = "tempsensor_" ++ hexString (env.efuseMac % 2 ^ 32) ∧
    (∀ s : Device,
      (setupTopics env s).temperature_topic =
        "homeassistant/sensor/temperature_" ++ getShortID env ++ "/temperature" ∧
      (setupTopics env s).availability_topic =
        "homeassistant/sensor/temperature_" ++ getShortID env ++ "/availability" ∧
      (setupTopics env s).ha_config_topic =
        "homeassistant/sensor/temperature_" ++ getShortID env ++ "/config" ∧
      setupTopics env (setupTopics env s) = setupTopics env s) ∧
    (∀ env2 : Env, env2.efuseMac = env.efuseMac →
      getShortID env2 = getShortID env ∧ ap_ssid env2 = ap_ssid env ∧
      getUniqueID env2 = getUniqueID env ∧ mqtt_client_id env2 = mqtt_client_id env ∧
      ∀ s1 s2 : Device,
        (setupTopics env2 s1).temperature_topic = (setupTopics env s2).temperature_topic ∧
        (setupTopics env2 s1).availability_topic = (setupTopics env s2).availability_topic ∧
        (setupTopics env2 s1).ha_config_topic = (setupTopics env s2).ha_config_topic) := by
  have hU : U32 = 2 ^ 32 := by decide
  refine ⟨?_, ?_, ?_, ?_, ?_, ?_⟩
  · simp [getShortID, efuseHex, substring, hU]
  · simp [ap_ssid, efuseHex, substring, hU]
  · simp [getUniqueID, efuseHex, hU]
  · simp [mqtt_client_id, efuseHex, hU]
  · intro s
    exact ⟨rfl, rfl, rfl, rfl⟩
  · intro env2 h
    have e : efuseHex env2 = efuseHex env := by simp [efuseHex, h]
    refine ⟨?_, ?_, ?_, ?_, ?_⟩
    · simp [getShortID, e]
    · simp [ap_ssid, e]
    · simp [getUniqueID, e]
    · simp [mqtt_client_id, e]
    · intro s1 s2
      simp [setupTopics, getShortID, e]

/-- Evaluation for C10: two boards whose eFuse MACs differ only above bit 31
(MAC addresses 24:6F:28:AA:00:01 and 24:6F:28:AA:00:02) derive the same
unique id and the same MQTT client id, "tempsensor_aa286f24". -/
theorem unique_id_collision :
    quietEnv.efuseMac ≠ siblingEnv.efuseMac ∧
    getUniqueID quietEnv = "tempsensor_aa286f24" ∧
    getUniqueID siblingEnv = "tempsensor_aa286f24" ∧
    mqtt_client_id quietEnv = mqtt_client_id siblingEnv := by
  refine ⟨by decide, ?_, ?_, ?_⟩
  · decide
  · decide
  · decide

/-! ### Frame of the blocking loops -/

theorem waits_refl (s : Device) : Waits s s :=
  ⟨s.mqttSession, s.mqttAttempts, s.now, [], by simp, by simp⟩

theorem waits_trans {a b c : Device} (h1 : Waits a b) (h2 : Waits b c) : Waits a c := by
  obtain ⟨x1, y1, z1, t1, rfl, p1⟩ := h1
  obtain ⟨x2, y2, z2, t2, rfl, p2⟩ := h2
  refine ⟨x2, y2, z2, t1 ++ t2, by simp, ?_⟩
  intro e he
  rcases List.mem_append.mp he with h | h
  · exact p1 e h
  · exact p2 e h

theorem waits_emit (e : Event) (s : Device) (he : Event.isAccessPoint e = false) :
    Waits s (emit e s) :=
  ⟨s.mqttSession, s.mqttAttempts, s.now, [e], rfl, by simpa using he⟩

theorem waits_delay (ms : Nat) (s : Device) : Waits s (delay ms s) :=
  ⟨s.mqttSession, s.mqttAttempts, s.now + ms, [Event.delay ms], rfl, by simp [Event.isAccessPoint]⟩

theorem waits_mqttConnected (env : Env) (s : Device) : Waits s (mqttConnected env s).2 := by
  unfold mqttConnected
  split
  · exact waits_refl s
  · exact ⟨false, s.mqttAttempts, s.now, [], by simp, by simp⟩

theorem waits_mqttConnect (env : Env) (a b : String) (q : Nat) (r : Bool) (m : String)
    (s : Device) : Waits s (mqttConnect env a b q r m s).2 :=
  ⟨env.connectOk s.mqttAttempts, s.mqttAttempts + 1, s.now, [Event.mqttConnect a b q r m], rfl,
    by simp [Event.isAccessPoint]⟩

theorem waits_mqttPublish (t p : String) (r : Bool) (s : Device) :
    Waits s (mqttPublish t p r s) :=
  waits_emit _ s rfl

theorem waits_checkBootLongPress (env : Env) (s : Device) :
    Waits s (checkBootLongPress env s).2 := by
  obtain ⟨n, hn⟩ := checkBootLongPress_frame env s
  refine ⟨s.mqttSession, s.mqttAttempts, s.now + 20 * n, List.replicate n (Event.delay 20), hn, ?_⟩
  intro e he
  rw [List.eq_of_mem_replicate he]
  rfl

theorem reconnectMQTT_waits (env : Env) : ∀ (fuel : Nat) (s : Device),
    (∀ s', reconnectMQTT env fuel s ≠ Run.restart s') ∧
    Waits s (reconnectMQTT env fuel s).state := by
  intro fuel
  induction fuel with
  | zero =>
    intro s
    exact ⟨by intro s' h; simp [reconnectMQTT] at h, by simpa [reconnectMQTT, Run.state] using waits_refl s⟩
  | succ fuel ih =>
    intro s
    rw [reconnectMQTT]
    dsimp only
    split
    · exact ⟨by intro s' h; simp at h, waits_mqttConnected env s⟩
    · split
      · refine ⟨(ih _).1, waits_trans ?_ (ih _).2⟩
        refine waits_trans ?_ (waits_mqttPublish _ _ _ _)
        refine waits_trans ?_ (waits_mqttPublish _ _ _ _)
        exact waits_trans (waits_mqttConnected env s) (waits_mqttConnect env _ _ _ _ _ _)
      · refine ⟨(ih _).1, waits_trans ?_ (ih _).2⟩
        refine waits_trans ?_ (waits_delay _ _)
        exact waits_trans (waits_mqttConnected env s) (waits_mqttConnect env _ _ _ _ _ _)

theorem connectWiFiLoop_cases (env : Env) (start : Nat) : ∀ (fuel : Nat) (s : Device),
    ∃ s1, Waits s s1 ∧
      (connectWiFiLoop env start fuel s = Run.done () s1 ∨
       connectWiFiLoop env start fuel s = Run.outOfFuel s1 ∨
       connectWiFiLoop env start fuel s = Run.restart (ESP_restart (clearWifiConfig s1))) := by
  intro fuel
  induction fuel with
  | zero =>
    intro s
    exact ⟨s, waits_refl s, Or.inr (Or.inl rfl)⟩
  | succ fuel ih =>
    intro s
    rw [connectWiFiLoop]
    dsimp only
    split
    · exact ⟨s, waits_refl s, Or.inl rfl⟩
    · split
      · exact ⟨s, waits_refl s, Or.inr (Or.inr rfl)⟩
      · split
        · exact ⟨_, waits_checkBootLongPress env s, Or.inr (Or.inr rfl)⟩
        · obtain ⟨s1, hw, hc⟩ := ih (delay 1000 (checkBootLongPress env s).2)
          exact ⟨s1, waits_trans (waits_trans (waits_checkBootLongPress env s) (waits_delay _ _)) hw, hc⟩

theorem staysOperational_refl (s : Device) : StaysOperational s s :=
  ⟨rfl, [], by simp, by simp⟩

theorem staysOperational_trans {a b c : Device} (h1 : StaysOperational a b)
    (h2 : StaysOperational b c) : StaysOperational a c := by
  obtain ⟨f1, t1, e1, p1⟩ := h1
  obtain ⟨f2, t2, e2, p2⟩ := h2
  refine ⟨f2.trans f1, t1 ++ t2, by rw [e2, e1, List.append_assoc], ?_⟩
  intro e he
  rcases List.mem_append.mp he with h | h
  · exact p1 e h
  · exact p2 e h

theorem staysOperational_of_waits {a b : Device} (h : Waits a b) : StaysOperational a b := by
  obtain ⟨x, y, z, t, rfl, p⟩ := h
  exact ⟨rfl, t, rfl, p⟩

theorem staysOperational_emit (e : Event) (s : Device) (he : Event.isAccessPoint e = false) :
    StaysOperational s (emit e s) :=
  staysOperational_of_waits (waits_emit e s he)

theorem staysOperational_abort (s : Device) :
    StaysOperational s (ESP_restart (clearWifiConfig s)) :=
  ⟨rfl, [Event.prefsClear "wifi", Event.restart], by simp [ESP_restart, clearWifiConfig, emit],
    by simp [Event.isAccessPoint]⟩

theorem connectWiFi_staysOperational (env : Env) (fuel : Nat) (s : Device) :
    StaysOperational (emit (Event.wifiBegin s.ssidSaved s.passSaved) (emit (Event.wifiMode false) s))
      (connectWiFi env fuel s).state := by
  unfold connectWiFi
  dsimp only
  obtain ⟨s1, hw, hc⟩ := connectWiFiLoop_cases env
    (millis (emit (Event.wifiBegin s.ssidSaved s.passSaved) (emit (Event.wifiMode false) s))) fuel
    (emit (Event.wifiBegin s.ssidSaved s.passSaved) (emit (Event.wifiMode false) s))
  rcases hc with h | h | h
  · rw [h]; exact staysOperational_of_waits hw
  · rw [h]; exact staysOperational_of_waits hw
  · rw [h]; exact staysOperational_trans (staysOperational_of_waits hw) (staysOperational_abort s1)

theorem mem_events_of_staysOperational {a b : Device} (h : StaysOperational a b) (e : Event)
    (he : e ∈ a.events) : e ∈ b.events := by
  obtain ⟨_, t, ht, _⟩ := h
  rw [ht]
  exact List.mem_append_left _ he

theorem setup_enters_config (env : Env) (fuel : Nat) (store : Store)
    (hcond :
      (checkBootLongPress env (loadDeviceConfig env
        (loadWifiConfig (emit Event.dhtBegin (delay 1000 (boot env store)))))).1 = true ∨
      getString "wifi" "ssid" "" store = "" ∨ getString "wifi" "pass" "" store = "") :
    setup env fuel (boot env store) = Run.done ()
      (startAPMode env
        { (checkBootLongPress env (loadDeviceConfig env
            (loadWifiConfig (emit Event.dhtBegin (delay 1000 (boot env store)))))).2 with
          shouldEnterAP := true }) := by
  obtain ⟨n, hn⟩ := checkBootLongPress_frame env (loadDeviceConfig env
    (loadWifiConfig (emit Event.dhtBegin (delay 1000 (boot env store)))))
  unfold setup
  dsimp only
  rw [if_pos]
  rw [hn]
  exact hcond

/-- C1: at boot, with `s1` the state after both `load` calls, `setup` enters
configuration mode (sets `shouldEnterAP`, calls `startAPMode`, makes no WiFi
join and no broker call) exactly when `checkBootLongPress` returns true or the
loaded ssid is empty or the loaded password is empty; otherwise it runs
`connectWiFi`, then `setupTopics` and `reconnectMQTT`, `shouldEnterAP` stays
false and no access-point or web-server call is made. -/
theorem setup_boot_decision (env : Env) (fuel : Nat) (store : Store) :
    let s1 := loadDeviceConfig env
      (loadWifiConfig (emit Event.dhtBegin (delay 1000 (boot env store))))
    let b := checkBootLongPress env s1
    let r := setup env fuel (boot env store)
    (s1.ssidSaved = getString "wifi" "ssid" "" store ∧
      s1.passSaved = getString "wifi" "pass" "" store) ∧
    ((b.1 = true ∨ s1.ssidSaved = "" ∨ s1.passSaved = "") →
      r = Run.done () (startAPMode env { b.2 with shouldEnterAP := true }) ∧
      r.state.shouldEnterAP = true ∧
      Event.softAP (ap_ssid env) ap_password ∈ r.state.events ∧
      ∀ e ∈ r.state.events, Event.isStation e = false) ∧
    (¬ (b.1 = true ∨ s1.ssidSaved = "" ∨ s1.passSaved = "") →
      r = (connectWiFi env fuel b.2).andThen (fun _ s =>
        reconnectMQTT env fuel
          (emit (Event.setBufferSize 2048)
            (emit (Event.setServer mqtt_server 1883) (setupTopics env s)))) ∧
      r.state.shouldEnterAP = false ∧
      Event.wifiBegin s1.ssidSaved s1.passSaved ∈ r.state.events ∧
      ∀ e ∈ r.state.events, Event.isAccessPoint e = false) := by
  intro s1 b r
  obtain ⟨n, hn⟩ := checkBootLongPress_frame env s1
  have hb2 : b.2 =
      { s1 with
        now := s1.now + 20 * n
        events := s1.events ++ List.replicate n (Event.delay 20) } := hn
  have hssid : b.2.ssidSaved = s1.ssidSaved := by rw [hb2]
  have hpass : b.2.passSaved = s1.passSaved := by rw [hb2]
  have hs1ev : s1.events = [Event.delay 1000, Event.dhtBegin] := by
    simp [s1, loadDeviceConfig, loadWifiConfig, emit, delay, boot]
  have hs1ap : s1.shouldEnterAP = false := rfl
  refine ⟨⟨rfl, rfl⟩, ?_, ?_⟩
  · intro hcond
    have hr : r = Run.done () (startAPMode env { b.2 with shouldEnterAP := true }) :=
      setup_enters_config env fuel store hcond
    refine ⟨hr, ?_, ?_, ?_⟩
    · rw [hr]; rfl
    · rw [hr]; simp [Run.state, startAPMode, emit]
    · rw [hr]
      have hev : (Run.done () (startAPMode env { b.2 with shouldEnterAP := true })).state.events =
          [Event.delay 1000, Event.dhtBegin] ++ List.replicate n (Event.delay 20) ++
            [Event.wifiMode true, Event.softAP (ap_ssid env) ap_password, Event.serverBegin] := by
        simp [Run.state, startAPMode, emit, hb2, hs1ev]
      rw [hev]
      intro e he
      simp only [List.mem_append, List.mem_cons, List.mem_singleton, List.not_mem_nil,
        or_false, List.mem_replicate] at he
      rcases he with ((h | h) | h) | h | h | h
      · rw [h]; rfl
      · rw [h]; rfl
      · rw [h.2]; rfl
      · rw [h]; rfl
      · rw [h]; rfl
      · rw [h]; rfl
  · intro hcond
    have hr : r = (connectWiFi env fuel b.2).andThen (fun _ s =>
        reconnectMQTT env fuel
          (emit (Event.setBufferSize 2048)
            (emit (Event.setServer mqtt_server 1883) (setupTopics env s)))) := by
      show setup env fuel (boot env store) = _
      unfold setup
      dsimp only
      rw [if_neg (by rw [hssid, hpass]; exact hcond)]
    have hstart : StaysOperational (boot env store)
        (emit (Event.wifiBegin b.2.ssidSaved b.2.passSaved) (emit (Event.wifiMode false) b.2)) := by
      refine ⟨by rw [hb2]; rfl, [Event.delay 1000, Event.dhtBegin] ++
        List.replicate n (Event.delay 20) ++
        [Event.wifiMode false, Event.wifiBegin b.2.ssidSaved b.2.passSaved], ?_, ?_⟩
      · simp [emit, hb2, hs1ev, boot]
      · intro e he
        simp only [List.mem_append, List.mem_cons, List.mem_singleton, List.not_mem_nil,
          or_false] at he
        simp only [List.mem_replicate] at he
        rcases he with ((h | h) | h) | h | h
        · rw [h]; rfl
        · rw [h]; rfl
        · rw [h.2]; rfl
        · rw [h]; rfl
        · rw [h]; rfl
    have hjoin := connectWiFi_staysOperational env fuel b.2
    have hfinal : StaysOperational
        (emit (Event.wifiBegin b.2.ssidSaved b.2.passSaved) (emit (Event.wifiMode false) b.2))
        r.state := by
      rw [hr]
      cases hcw : connectWiFi env fuel b.2 with
      | done a s2 =>
        rw [hcw] at hjoin
        change StaysOperational _ s2 at hjoin
        simp only [Run.andThen]
        refine staysOperational_trans hjoin ?_
        refine staysOperational_trans ?_ (staysOperational_of_waits (reconnectMQTT_waits env fuel _).2)
        refine staysOperational_trans ?_ (staysOperational_emit _ _ rfl)
        refine staysOperational_trans ?_ (staysOperational_emit _ _ rfl)
        exact ⟨rfl, [], by simp [setupTopics], by simp⟩
      | restart s2 =>
        rw [hcw] at hjoin
        exact hjoin
      | outOfFuel s2 =>
        rw [hcw] at hjoin
        exact hjoin
    have hall := staysOperational_trans hstart hfinal
    refine ⟨hr, ?_, ?_, ?_⟩
    · rw [hall.1]; rfl
    · apply mem_events_of_staysOperational hfinal
      simp [emit, hssid, hpass]
    · obtain ⟨_, t, ht, hp⟩ := hall
      intro e he
      rw [ht] at he
      simp only [boot, List.nil_append] at he
      exact hp e he

/-- A sample of C1: with an empty store `setup` ends in configuration mode. -/
theorem setup_boot_decision_witness :
    (setup quietEnv 0 (boot quietEnv emptyStore)).state.shouldEnterAP = true :=
  ((setup_boot_decision quietEnv 0 emptyStore).2.1 (Or.inr (Or.inl rfl))).2.1

/-! ### Sensor scheduling -/

theorem mqttConnected_true (env : Env) (s : Device) (h : (mqttConnected env s).1 = true) :
    (mqttConnected env s).2 = s := by
  unfold mqttConnected at h ⊢
  split
  · rfl
  · rename_i hl; simp [hl] at h

/-- One turn of `loop` in operational mode that starts with the broker
session up: the body after the reconnect test. -/
theorem loop_connected (env : Env) (fuel : Nat) (s : Device)
    (hop : s.shouldEnterAP = false) (hconn : (mqttConnected env s).1 = true) :
    loop env fuel s =
      (let s3 :=
        if subU32 (millis s) s.lastSensorTime > TEMPERATURE_INTERVAL then
          { readAndPublishTemperature env (emit Event.mqttLoop s) with lastSensorTime := millis s }
        else emit Event.mqttLoop s
      let s4 :=
        if subU32 (millis s3) s3.lastAvailabilityReport > AVAILABILITY_INTERVAL then
          { mqttPublish s3.availability_topic "online" true s3 with
            lastAvailabilityReport := millis s3 }
        else s3
      if (checkBootLongPress env s4).1 = true then
        Run.restart (ESP_restart (delay 1000 (clearWifiConfig (checkBootLongPress env s4).2)))
      else Run.done () (checkBootLongPress env s4).2) := by
  have hm : ∀ x : Device, millis (readAndPublishTemperature env x) = millis x := by
    intro x
    unfold readAndPublishTemperature
    split <;> rfl
  unfold loop
  simp only [hop, hconn, mqttConnected_true env s hconn, if_true, Run.andThen, Bool.false_eq_true,
    if_false, hm]
  rfl

theorem readAndPublishTemperature_none (env : Env) (s : Device)
    (h : env.readTemperature s.now = none) : readAndPublishTemperature env s = s := by
  simp [readAndPublishTemperature, h]

theorem readAndPublishTemperature_some (env : Env) (s : Device) (v : Int)
    (h : env.readTemperature s.now = some v) :
    readAndPublishTemperature env s =
      { s with lastTemperature := v, lastTemperatureRead := millis s,
               events := s.events ++ [Event.mqttPublish s.temperature_topic (dtostrf v) true] } := by
  simp [readAndPublishTemperature, h, mqttPublish, emit]

/-- One turn of `loop` in operational mode whose reconnect step returned in
state `s1`: the body that follows. -/
theorem loop_of_reconnected (env : Env) (fuel : Nat) (s s1 : Device)
    (hop : s.shouldEnterAP = false) (hpre : loopReconnect env fuel s = Run.done () s1) :
    loop env fuel s =
      (let s3 :=
        if subU32 (millis s1) s1.lastSensorTime > TEMPERATURE_INTERVAL then
          { readAndPublishTemperature env (emit Event.mqttLoop s1) with
            lastSensorTime := millis s1 }
        else emit Event.mqttLoop s1
      let s4 :=
        if subU32 (millis s3) s3.lastAvailabilityReport > AVAILABILITY_INTERVAL then
          { mqttPublish s3.availability_topic "online" true s3 with
            lastAvailabilityReport := millis s3 }
        else s3
      if (checkBootLongPress env s4).1 = true then
        Run.restart (ESP_restart (delay 1000 (clearWifiConfig (checkBootLongPress env s4).2)))
      else Run.done () (checkBootLongPress env s4).2) := by
  have hm : ∀ x : Device, millis (readAndPublishTemperature env x) = millis x := by
    intro x
    unfold readAndPublishTemperature
    split <;> rfl
  unfold loopReconnect at hpre
  unfold loop
  simp only [hop, Bool.false_eq_true, if_false]
  rw [hpre]
  simp only [Run.andThen, hm]
  rfl

theorem loopReconnect_waits (env : Env) (fuel : Nat) (s : Device) :
    Waits s (loopReconnect env fuel s).state := by
  unfold loopReconnect
  split
  · exact waits_mqttConnected env s
  · exact waits_trans (waits_mqttConnected env s) (reconnectMQTT_waits env fuel _).2

/-- What the end of a turn of `loop` (heartbeat, long-press check, abort)
does to the state `s3` reached after the sensor step: it keeps the sensor
variables and adds to the log the heartbeat publish when it is due, the waits
of the long-press check and, on a long press, the abort sequence. -/
theorem loop_tail_log (env : Env) (s3 : Device) :
    let s4 :=
      if subU32 (millis s3) s3.lastAvailabilityReport > AVAILABILITY_INTERVAL then
        { mqttPublish s3.availability_topic "online" true s3 with
          lastAvailabilityReport := millis s3 }
      else s3
    let r : Run Unit :=
      if (checkBootLongPress env s4).1 = true then
        Run.restart (ESP_restart (delay 1000 (clearWifiConfig (checkBootLongPress env s4).2)))
      else Run.done () (checkBootLongPress env s4).2
    r.state.lastSensorTime = s3.lastSensorTime ∧
    r.state.lastTemperature = s3.lastTemperature ∧
    r.state.lastTemperatureRead = s3.lastTemperatureRead ∧
    ∃ n aborted, r.state.events = s3.events ++ heartbeatLog s3 ++ turnEndLog n aborted := by
  intro s4 r
  obtain ⟨n, hn⟩ := checkBootLongPress_frame env s4
  have h4 : s4.lastSensorTime = s3.lastSensorTime ∧ s4.lastTemperature = s3.lastTemperature ∧
      s4.lastTemperatureRead = s3.lastTemperatureRead ∧
      s4.events = s3.events ++ heartbeatLog s3 := by
    simp only [s4, heartbeatLog]
    split
    · simp [mqttPublish, emit]
    · simp
  by_cases hb : (checkBootLongPress env s4).1 = true
  · have hr : r = Run.restart
        (ESP_restart (delay 1000 (clearWifiConfig (checkBootLongPress env s4).2))) := by
      simp only [r]
      rw [if_pos hb]
    rw [hr, hn]
    refine ⟨h4.1, h4.2.1, h4.2.2.1, n, true, ?_⟩
    simp [Run.state, ESP_restart, delay, clearWifiConfig, emit, turnEndLog, h4.2.2.2]
  · have hr : r = Run.done () (checkBootLongPress env s4).2 := by
      simp only [r]
      rw [if_neg hb]
    rw [hr, hn]
    refine ⟨h4.1, h4.2.1, h4.2.2.1, n, false, ?_⟩
    simp [Run.state, turnEndLog, h4.2.2.2]

/-- C6 as the code has it: in a turn of the operational `loop` whose
reconnect step returned (state `s1`; `s1 = s` when the broker session is up)
and in which a sensor read is due, the timer `lastSensorTime` is set to the
current `millis()` whether the read fails or succeeds, so for the next
`TEMPERATURE_INTERVAL` milliseconds no read is due.  A failed read leaves
`lastTemperature` and `lastTemperatureRead` as they were and publishes
nothing: the turn adds to the log only the broker pump, the heartbeat when
due and the end of the turn.  A successful read stores the value, stamps
`lastTemperatureRead` and adds exactly one retained publish of the formatted
value on the telemetry topic, right after the broker pump. -/
theorem loop_sensor_timer (env : Env) (fuel : Nat) (s s1 : Device)
    (hop : s.shouldEnterAP = false) (hpre : loopReconnect env fuel s = Run.done () s1)
    (hdue : subU32 (millis s1) s1.lastSensorTime > TEMPERATURE_INTERVAL) :
    (loop env fuel s).state.lastSensorTime = millis s1 ∧
    (∀ dt, dt ≤ TEMPERATURE_INTERVAL →
      ¬ subU32 ((s1.now + dt) % U32) (loop env fuel s).state.lastSensorTime >
        TEMPERATURE_INTERVAL) ∧
    (env.readTemperature s1.now = none →
      (loop env fuel s).state.lastTemperature = s.lastTemperature ∧
      (loop env fuel s).state.lastTemperatureRead = s.lastTemperatureRead ∧
      ∃ n aborted, (loop env fuel s).state.events =
        s1.events ++ [Event.mqttLoop] ++ heartbeatLog s1 ++ turnEndLog n aborted) ∧
    (∀ v, env.readTemperature s1.now = some v →
      (loop env fuel s).state.lastTemperature = v ∧
      (loop env fuel s).state.lastTemperatureRead = millis s1 ∧
      ∃ n aborted, (loop env fuel s).state.events =
        s1.events ++ [Event.mqttLoop, Event.mqttPublish s.temperature_topic (dtostrf v) true] ++
          heartbeatLog s1 ++ turnEndLog n aborted) ∧
    ((mqttConnected env s).1 = true → s1 = s) := by
  have hl := loop_of_reconnected env fuel s s1 hop hpre
  simp only [hdue, if_true] at hl
  have hk := loop_tail_log env
    { readAndPublishTemperature env (emit Event.mqttLoop s1) with lastSensorTime := millis s1 }
  simp only at hk
  rw [← hl] at hk
  obtain ⟨k1, k2, k3, n, aborted, k4⟩ := hk
  have hw : Waits s s1 := by
    have := loopReconnect_waits env fuel s
    rw [hpre] at this
    exact this
  obtain ⟨x, y, z, tl, hs1, _⟩ := hw
  have htemp : s1.lastTemperature = s.lastTemperature := by rw [hs1]
  have hread : s1.lastTemperatureRead = s.lastTemperatureRead := by rw [hs1]
  have htopic : s1.temperature_topic = s.temperature_topic := by rw [hs1]
  have htimer : (loop env fuel s).state.lastSensorTime = millis s1 := k1
  refine ⟨htimer, ?_, ?_, ?_, ?_⟩
  · intro dt hdt
    rw [htimer, millis, subU32_elapsed _ _ (by unfold TEMPERATURE_INTERVAL at hdt; unfold U32; omega)]
    omega
  · intro hnone
    have e := readAndPublishTemperature_none env (emit Event.mqttLoop s1) hnone
    rw [e] at k2 k3 k4
    refine ⟨k2.trans htemp, k3.trans hread, n, aborted, ?_⟩
    rw [k4]
    rfl
  · intro v hsome
    have e := readAndPublishTemperature_some env (emit Event.mqttLoop s1) v hsome
    rw [e] at k2 k3 k4
    refine ⟨k2, k3, n, aborted, ?_⟩
    rw [k4, ← htopic]
    simp [emit, heartbeatLog, millis]
  · intro hconn
    unfold loopReconnect at hpre
    rw [if_pos hconn, mqttConnected_true env s hconn] at hpre
    injection hpre with _ h
    exact h.symm

/-- A sample of C5: two refused connections, then an accepted one. -/
theorem reconnectMQTT_protocol_witness :
    reconnectMQTT busyBrokerEnv 4 (setupTopics busyBrokerEnv (boot busyBrokerEnv emptyStore)) =
      Run.done ()
        { setupTopics busyBrokerEnv (boot busyBrokerEnv emptyStore) with
          mqttSession := true
          mqttAttempts := 0 + 2 + 1
          now := 0 + 5000 * 2
          events := [] ++
            (List.replicate 2 (failedAttempt busyBrokerEnv
              (setupTopics busyBrokerEnv (boot busyBrokerEnv emptyStore)))).flatten ++
            successfulAttempt busyBrokerEnv
              (setupTopics busyBrokerEnv (boot busyBrokerEnv emptyStore)) } :=
  reconnectMQTT_protocol busyBrokerEnv 2
    (setupTopics busyBrokerEnv (boot busyBrokerEnv emptyStore)) 4
    (by decide) (by decide) (by decide) (by decide) (by decide)

/-- Counterexample to C6 as stated: at time 1000 a read is due and fails, and
the turn of `loop` moves the timer `lastSensorTime` from its initial value to
1000; one millisecond later the sensor would answer, but the next turn makes
no read: it only services the broker client. -/
theorem failed_read_resets_timer :
    operationalState.shouldEnterAP = false ∧
    subU32 (millis operationalState) operationalState.lastSensorTime > TEMPERATURE_INTERVAL ∧
    flakySensorEnv.readTemperature operationalState.now = none ∧
    operationalState.lastSensorTime = 4294667286 ∧
    (loop flakySensorEnv 0 operationalState).state.lastSensorTime = 1000 ∧
    (loop flakySensorEnv 0 operationalState).state.events = [Event.mqttLoop] ∧
    flakySensorEnv.readTemperature 1001 = some 2350 ∧
    (loop flakySensorEnv 0
      { (loop flakySensorEnv 0 operationalState).state with now := 1001 }).state.events =
      [Event.mqttLoop, Event.mqttLoop] ∧
    (loop flakySensorEnv 0
      { (loop flakySensorEnv 0 operationalState).state with now := 1001 }).state.lastTemperatureRead
      = 0 := by
  refine ⟨rfl, by decide, rfl, by decide, ?_, ?_, rfl, ?_, ?_⟩
  · decide
  · decide
  · decide
  · decide

/-! ### Abort of operational mode -/

theorem connectWiFiLoop_timeout (env : Env) (t0 : Nat)
    (hw : ∀ t, t0 ≤ t → env.wifiConnected t = false)
    (hp : ∀ t, t0 ≤ t → env.pinLow t = false) :
    ∀ k j (s : Device) (fuel : Nat), j + k = 31 → s.now = t0 + 1000 * j → k + 1 ≤ fuel →
      ∃ s1, Waits s s1 ∧ s1.now = t0 + 31000 ∧
        connectWiFiLoop env (t0 % U32) fuel s = Run.restart (ESP_restart (clearWifiConfig s1)) := by
  intro k
  induction k with
  | zero =>
    intro j s fuel hj hs hfuel
    obtain ⟨f, rfl⟩ : ∃ f, fuel = f + 1 := ⟨fuel - 1, by omega⟩
    have he : subU32 (millis s) (t0 % U32) = 1000 * j := by
      rw [millis, hs]; exact subU32_elapsed _ _ (by unfold U32; omega)
    refine ⟨s, waits_refl s, by omega, ?_⟩
    rw [connectWiFiLoop]
    simp only [hw s.now (by omega), he, Bool.false_eq_true, if_false]
    rw [if_pos (by omega)]
  | succ k ih =>
    intro j s fuel hj hs hfuel
    obtain ⟨f, rfl⟩ : ∃ f, fuel = f + 1 := ⟨fuel - 1, by omega⟩
    have he : subU32 (millis s) (t0 % U32) = 1000 * j := by
      rw [millis, hs]; exact subU32_elapsed _ _ (by unfold U32; omega)
    obtain ⟨s1, hw1, hn1, hr1⟩ := ih (j + 1) (delay 1000 s) f (by omega)
      (by simp [delay, hs]; omega) (by omega)
    refine ⟨s1, waits_trans (waits_delay 1000 s) hw1, hn1, ?_⟩
    rw [connectWiFiLoop]
    simp only [hw s.now (by omega), he, Bool.false_eq_true, if_false,
      checkBootLongPress_released env s (hp s.now (by omega))]
    rw [if_neg (by omega)]
    exact hr1

theorem store_of_waits {a b : Device} (h : Waits a b) : b.store = a.store := by
  obtain ⟨x, y, z, t, rfl, _⟩ := h
  rfl

theorem connectWiFi_restart (env : Env) (fuel : Nat) (s s' : Device)
    (h : connectWiFi env fuel s = Run.restart s') :
    ∃ s1, s1.store = s.store ∧ s' = ESP_restart (clearWifiConfig s1) := by
  unfold connectWiFi at h
  dsimp only at h
  obtain ⟨s1, hw, hc⟩ := connectWiFiLoop_cases env
    (millis (emit (Event.wifiBegin s.ssidSaved s.passSaved) (emit (Event.wifiMode false) s))) fuel
    (emit (Event.wifiBegin s.ssidSaved s.passSaved) (emit (Event.wifiMode false) s))
  rw [h] at hc
  rcases hc with hc | hc | hc
  · cases hc
  · cases hc
  · refine ⟨s1, ?_, by injection hc⟩
    rw [store_of_waits hw]
    rfl

theorem loop_body_restart (env : Env) (s2 s' : Device) :
    let s3 :=
      if subU32 (millis (emit Event.mqttLoop s2)) (emit Event.mqttLoop s2).lastSensorTime >
          TEMPERATURE_INTERVAL then
        { readAndPublishTemperature env (emit Event.mqttLoop s2) with
          lastSensorTime := millis (readAndPublishTemperature env (emit Event.mqttLoop s2)) }
      else emit Event.mqttLoop s2
    let s4 :=
      if subU32 (millis s3) s3.lastAvailabilityReport > AVAILABILITY_INTERVAL then
        { mqttPublish s3.availability_topic "online" true s3 with
          lastAvailabilityReport := millis (mqttPublish s3.availability_topic "online" true s3) }
      else s3
    (if (checkBootLongPress env s4).1 = true then
        Run.restart (ESP_restart (delay 1000 (clearWifiConfig (checkBootLongPress env s4).2)))
      else (Run.done () (checkBootLongPress env s4).2 : Run Unit)) = Run.restart s' →
    ∃ s1, s1.store = s2.store ∧ s' = ESP_restart (delay 1000 (clearWifiConfig s1)) := by
  intro s3 s4 h
  have hread : ∀ x : Device, (readAndPublishTemperature env x).store = x.store := by
    intro x
    unfold readAndPublishTemperature
    split <;> rfl
  have h3 : s3.store = s2.store := by
    simp only [s3]
    split
    · simp [hread, emit]
    · rfl
  have h4 : s4.store = s2.store := by
    simp only [s4]
    split
    · simp [mqttPublish, emit, h3]
    · exact h3
  by_cases hb : (checkBootLongPress env s4).1 = true
  · rw [if_pos hb] at h
    refine ⟨(checkBootLongPress env s4).2, ?_, by injection h with h; exact h.symm⟩
    rw [store_of_waits (waits_checkBootLongPress env s4), h4]
  · rw [if_neg hb] at h
    cases h

theorem loop_restart (env : Env) (fuel : Nat) (s s' : Device) (hop : s.shouldEnterAP = false)
    (h : loop env fuel s = Run.restart s') :
    ∃ s1, s1.store = s.store ∧ s' = ESP_restart (delay 1000 (clearWifiConfig s1)) := by
  unfold loop at h
  simp only [hop, Bool.false_eq_true, if_false] at h
  cases hpre : (if (mqttConnected env s).1 = true then Run.done () (mqttConnected env s).2
      else reconnectMQTT env fuel (mqttConnected env s).2) with
  | restart s2 =>
    exfalso
    split at hpre
    · cases hpre
    · exact (reconnectMQTT_waits env fuel _).1 s2 hpre
  | outOfFuel s2 =>
    rw [hpre] at h
    cases h
  | done a s2 =>
    have hs2 : s2.store = s.store := by
      have hw : Waits s (if (mqttConnected env s).1 = true then Run.done ()
          (mqttConnected env s).2 else reconnectMQTT env fuel (mqttConnected env s).2).state := by
        split
        · exact waits_mqttConnected env s
        · exact waits_trans (waits_mqttConnected env s) (reconnectMQTT_waits env fuel _).2
      rw [hpre] at hw
      exact store_of_waits hw
    rw [hpre] at h
    obtain ⟨s1, h1, h2⟩ := loop_body_restart env s2 s' h
    exact ⟨s1, h1.trans hs2, h2⟩

theorem cleared_boots_into_config (env : Env) (fuel : Nat) (store : Store)
    (h : ∀ k, store "wifi" k = none) :
    (loadWifiConfig (boot env store)).ssidSaved = "" ∧
    ∃ s2, setup env fuel (boot env store) = Run.done () s2 ∧ s2.shouldEnterAP = true := by
  have hs : getString "wifi" "ssid" "" store = "" := by simp [getString, h]
  refine ⟨hs, _, setup_enters_config env fuel store (Or.inr (Or.inl hs)), rfl⟩

theorem abort_state_cleared (s s1 : Device) (mid : Device → Device) (h1 : s1.store = s.store)
    (hmid : ∀ x, (mid x).store = x.store) :
    (∀ k, (ESP_restart (mid (clearWifiConfig s1))).store "wifi" k = none) ∧
    (∀ k, (ESP_restart (mid (clearWifiConfig s1))).store "device" k = s.store "device" k) := by
  have e : (ESP_restart (mid (clearWifiConfig s1))).store = prefsClear "wifi" s.store := by
    show (mid (clearWifiConfig s1)).store = _
    rw [hmid]
    show prefsClear "wifi" s1.store = _
    rw [h1]
  rw [e]
  constructor
  · intro k
    simp [prefsClear]
  · intro k
    simp [prefsClear]

/-- C4: whenever `connectWiFi` or a turn of the operational `loop` ends in
`ESP.restart()`, `clearWifiConfig` ran just before it (in `loop` with the
`delay(1000)` in between); the restarted device has no key left in the `wifi`
namespace and the `device` namespace untouched, and on the next boot
`loadWifiConfig` yields an empty ssid and `setup` enters configuration mode
for every environment, the button state included.  The three detection points
do fire: a join that is still pending when more than 30000 ms have elapsed
(with one poll per second, at 31000 ms), a long press during the join wait,
and a long press in `loop`. -/
theorem abort_erases_credentials (env : Env) (fuel : Nat) (s : Device) :
    (∀ s', connectWiFi env fuel s = Run.restart s' →
      (∃ pre, s'.events = pre ++ [Event.prefsClear "wifi", Event.restart]) ∧
      (∀ k, s'.store "wifi" k = none) ∧
      (∀ k, s'.store "device" k = s.store "device" k) ∧
      ∀ (env2 : Env) (fuel2 : Nat),
        (loadWifiConfig (boot env2 s'.store)).ssidSaved = "" ∧
        ∃ s2, setup env2 fuel2 (boot env2 s'.store) = Run.done () s2 ∧
          s2.shouldEnterAP = true) ∧
    (∀ s', s.shouldEnterAP = false → loop env fuel s = Run.restart s' →
      (∃ pre, s'.events = pre ++
        [Event.prefsClear "wifi", Event.delay 1000, Event.restart]) ∧
      (∀ k, s'.store "wifi" k = none) ∧
      (∀ k, s'.store "device" k = s.store "device" k) ∧
      ∀ (env2 : Env) (fuel2 : Nat),
        (loadWifiConfig (boot env2 s'.store)).ssidSaved = "" ∧
        ∃ s2, setup env2 fuel2 (boot env2 s'.store) = Run.done () s2 ∧
          s2.shouldEnterAP = true) ∧
    (32 ≤ fuel → (∀ t, s.now ≤ t → env.wifiConnected t = false) →
      (∀ t, s.now ≤ t → env.pinLow t = false) →
      ∃ s', connectWiFi env fuel s = Run.restart s' ∧ s'.now = s.now + 31000) ∧
    (1 ≤ fuel → env.wifiConnected s.now = false →
      (∀ t, s.now ≤ t → t ≤ s.now + 3000 → env.pinLow t = true) →
      ∃ s', connectWiFi env fuel s = Run.restart s') ∧
    (s.shouldEnterAP = false → (mqttConnected env s).1 = true →
      (∀ t, s.now ≤ t → t ≤ s.now + 3000 → env.pinLow t = true) →
      ∃ s', loop env fuel s = Run.restart s') := by
  refine ⟨?_, ?_, ?_, ?_, ?_⟩
  · intro s' h
    obtain ⟨s1, h1, rfl⟩ := connectWiFi_restart env fuel s s' h
    have hc := abort_state_cleared s s1 id h1 (fun _ => rfl)
    refine ⟨⟨s1.events, by simp [ESP_restart, clearWifiConfig, emit]⟩, hc.1, hc.2, ?_⟩
    intro env2 fuel2
    exact cleared_boots_into_config env2 fuel2 _ hc.1
  · intro s' hop h
    obtain ⟨s1, h1, rfl⟩ := loop_restart env fuel s s' hop h
    have hc := abort_state_cleared s s1 (delay 1000) h1 (fun _ => rfl)
    refine ⟨⟨s1.events, by simp [ESP_restart, clearWifiConfig, emit, delay]⟩, hc.1, hc.2, ?_⟩
    intro env2 fuel2
    exact cleared_boots_into_config env2 fuel2 _ hc.1
  · intro hfuel hw hp
    obtain ⟨s1, _, hn, hr⟩ := connectWiFiLoop_timeout env s.now hw hp 31 0
      (emit (Event.wifiBegin s.ssidSaved s.passSaved) (emit (Event.wifiMode false) s)) fuel
      (by omega) (by simp [emit]) (by omega)
    refine ⟨_, hr, ?_⟩
    simpa [ESP_restart, clearWifiConfig, emit] using hn
  · intro hfuel hw hp
    obtain ⟨f, rfl⟩ : ∃ f, fuel = f + 1 := ⟨fuel - 1, by omega⟩
    have hb : (checkBootLongPress env
        (emit (Event.wifiBegin s.ssidSaved s.passSaved) (emit (Event.wifiMode false) s))).1 = true :=
      checkBootLongPress_held env _ hp
    have he : subU32 (millis s) (millis s) = 0 := by
      unfold subU32 millis U32
      omega
    refine ⟨ESP_restart (clearWifiConfig (checkBootLongPress env
      (emit (Event.wifiBegin s.ssidSaved s.passSaved) (emit (Event.wifiMode false) s))).2), ?_⟩
    unfold connectWiFi
    dsimp only
    rw [connectWiFiLoop]
    have hw2 : env.wifiConnected
        (emit (Event.wifiBegin s.ssidSaved s.passSaved) (emit (Event.wifiMode false) s)).now = false := hw
    have he2 : subU32
        (millis (emit (Event.wifiBegin s.ssidSaved s.passSaved) (emit (Event.wifiMode false) s)))
        (millis (emit (Event.wifiBegin s.ssidSaved s.passSaved) (emit (Event.wifiMode false) s)))
        = 0 := he
    simp only [hw2, he2, hb, Bool.false_eq_true, if_false, if_true]
    rw [if_neg (by omega)]
  · intro hop hconn hp
    rw [loop_connected env fuel s hop hconn]
    dsimp only
    have hnow : ∀ x : Device, (readAndPublishTemperature env x).now = x.now := by
      intro x
      unfold readAndPublishTemperature
      split <;> rfl
    rw [if_pos]
    · exact ⟨_, rfl⟩
    · apply checkBootLongPress_held
      have e : ∀ (x : Device), x.now = s.now →
          (if subU32 (millis x) x.lastAvailabilityReport > AVAILABILITY_INTERVAL then
            { mqttPublish x.availability_topic "online" true x with
              lastAvailabilityReport := millis x }
          else x).now = s.now := by
        intro x hx
        split
        · exact hx
        · exact hx
      rw [e]
      · exact hp
      · split
        · exact hnow _
        · rfl

/-- A sample of C4: a network that is never joined makes `connectWiFi` give
up at 31000 ms, and the restart it ends in has erased the credentials. -/
theorem abort_erases_credentials_witness :
    ∃ s', connectWiFi offlineEnv 32 operationalState = Run.restart s' ∧ s'.now = 1000 + 31000 :=
  (abort_erases_credentials offlineEnv 32 operationalState).2.2.1 (by decide)
    (fun _ _ => rfl) (fun _ _ => rfl)

/-- A sample of C6 as the code has it: the failed read at time 1000 resets
the timer to 1000. -/
theorem loop_sensor_timer_witness :
    (loop flakySensorEnv 0 operationalState).state.lastSensorTime = millis operationalState :=
  (loop_sensor_timer flakySensorEnv 0 operationalState operationalState rfl rfl
    (by decide)).1

/-- A sample of C9: an environment that differs from the quiet one only by
its button derives the same short id. -/
theorem identity_derivation_witness : getShortID pressedEnv = getShortID quietEnv :=
  ((identity_derivation quietEnv).2.2.2.2.2 pressedEnv rfl).1

/-! ### The hexadecimal rendering reads back -/

theorem hexDigitValue_digitChar (m : Nat) (h : m < 16) :
    hexDigitValue (Nat.digitChar m) = m := by
  interval_cases m <;> decide

theorem foldl_toDigitsCore (fuel : Nat) : ∀ (n : Nat) (ds : List Char), n < fuel →
    (Nat.toDigitsCore 16 fuel n ds).foldl (fun acc c => acc * 16 + hexDigitValue c) 0 =
      ds.foldl (fun acc c => acc * 16 + hexDigitValue c) n := by
  induction fuel with
  | zero => intro n ds h; omega
  | succ fuel ih =>
    intro n ds h
    rw [Nat.toDigitsCore]
    split
    · rename_i h0
      have hn : n % 16 = n := by omega
      simp [List.foldl, hexDigitValue_digitChar n (by omega), hn]
    · rename_i h0
      rw [ih (n / 16) _ (by omega)]
      have hn : n / 16 * 16 + n % 16 = n := by omega
      simp [List.foldl, hexDigitValue_digitChar (n % 16) (Nat.mod_lt _ (by omega)), hn]

/-- The rendering `String(value, HEX)` denotes `value`: reading its digits
back in base 16 returns the number, so different numbers have different
renderings. -/
theorem hexValue_hexString (n : Nat) : hexValue (hexString n) = n := by
  unfold hexValue hexString Nat.toDigits
  rw [foldl_toDigitsCore (n + 1) n [] (by omega)]
  rfl

/-- Two boards whose eFuse MACs differ in their low 32 bits have different
unique ids and different MQTT client ids. -/
theorem unique_id_of_low_bits (env1 env2 : Env)
    (h : env1.efuseMac % 2 ^ 32 ≠ env2.efuseMac % 2 ^ 32) :
    getUniqueID env1 ≠ getUniqueID env2 ∧ mqtt_client_id env1 ≠ mqtt_client_id env2 := by
  have hU : U32 = 2 ^ 32 := by decide
  have key : efuseHex env1 ≠ efuseHex env2 := by
    intro e
    apply h
    have := congrArg hexValue e
    simpa [efuseHex, hexValue_hexString, hU] using this
  have inj : ∀ a b : String, "tempsensor_" ++ a = "tempsensor_" ++ b → a = b := by
    intro a b e
    have := congrArg String.data e
    simp only [String.data_append, List.append_cancel_left_eq] at this
    exact String.ext this
  exact ⟨fun e => key (inj _ _ e), fun e => key (inj _ _ e)⟩

end HaosSensor
